import Mathlib

/-!
Shallow embedding of the repository resource reconciler of
terraform-provider-repoflow (internal/provider/workspace_resource.go,
type RepositoryResource) together with the factory helpers
(internal/factory), and theorems settling the frozen claims about it.

Modelling conventions.  Terraform framework nullable attribute values
(types.String, types.Int64, types.Bool, types.List) are modelled as
Option values: none stands for a null (or unknown) attribute, some v for
a known value.  Go (value, error) pairs are modelled as Except String,
the remote client as a record of oracle functions, and each lifecycle
invocation returns an Outcome recording the diagnostics added, the log
entries emitted, the gateway calls made (in order) and how the
invocation terminated.  Go int and int64 are both modelled as Int, so
the factory conversions are the identity on the carried value.
-/

namespace Repoflow

/-- Go `types.String.ValueString()`: a null (or unknown) string attribute
reads as the empty string. -/
def valueString : Option String → String
  | none => ""
  | some s => s

/-- Go `types.Bool.ValueBool()`: a null bool attribute reads as false. -/
def valueBool : Option Bool → Bool
  | none => false
  | some b => b

/-- Embeds factory.IntPtrToInt64Ptr (internal/factory): a nil *int maps to a
nil *int64, otherwise the pointed-to value is converted and returned. -/
def IntPtrToInt64Ptr : Option Int → Option Int
  | none => none
  | some i => some i

/-- Embeds factory.Int64ToPtr (internal/factory): a null or unknown
types.Int64 maps to a nil *int, otherwise to a pointer to its value. -/
def Int64ToPtr : Option Int → Option Int
  | none => none
  | some v => some v

/-- Embeds RepositoryResourceModel (workspace_resource.go): the declared
(Terraform) state record of the repository resource. -/
structure RepositoryResourceModel where
  name : Option String
  id : Option String
  workspaceId : Option String
  packageType : Option String
  repositoryType : Option String
  repositoryId : Option String
  remoteRepositoryUrl : Option String
  remoteRepositoryUsername : Option String
  remoteRepositoryPassword : Option String
  remoteCacheEnabled : Option Bool
  fileCacheTimeTillRevalidation : Option Int
  metadataCacheTimeTillRevalidation : Option Int
  childRepositoryIds : Option (List String)
  uploadLocalRepositoryId : Option String
  deriving Repr, DecidableEq

/-- A child repository object of the remote record; the mapper only reads
its id field. -/
structure ChildRepository where
  id : String
  deriving Repr, DecidableEq

/-- The remote service record repoflow.Repository, restricted to the fields
the resource code reads. -/
structure Repository where
  id : String
  name : String
  repositoryType : String
  packageType : String
  remoteRepositoryUrl : Option String
  remoteRepositoryUsername : Option String
  remoteRepositoryPassword : Option String
  isRemoteCacheEnabled : Bool
  fileCacheTimeTillRevalidation : Option Int
  metadataCacheTimeTillRevalidation : Option Int
  uploadLocalRepositoryId : Option String
  childRepositories : Option (List ChildRepository)
  deriving Repr, DecidableEq

/-- The remote workspace record repoflow.Workspace (fields used here). -/
structure Workspace where
  id : String
  name : String
  deriving Repr, DecidableEq

/-- repoflow.RepositoryOptions: payload of a local repository create. -/
structure RepositoryOptions where
  name : String
  packageType : String
  deriving Repr, DecidableEq

/-- repoflow.RepositoryRemoteOptions: payload of a remote repository create. -/
structure RepositoryRemoteOptions where
  name : String
  packageType : String
  remoteRepositoryUrl : String
  remoteRepositoryUsername : String
  remoteRepositoryPassword : String
  isRemoteCacheEnabled : Bool
  fileCacheTimeTillRevalidation : Option Int
  metadataCacheTimeTillRevalidation : Option Int
  deriving Repr, DecidableEq

/-- repoflow.RepositoryVirtualOptions: payload of a virtual repository create. -/
structure RepositoryVirtualOptions where
  name : String
  packageType : String
  childRepositoryIds : List String
  uploadLocalRepositoryId : String
  deriving Repr, DecidableEq

/-- One call made against the remote repository gateway (*repoflow.Client),
recorded with the arguments the resource code passed. -/
inductive GatewayCall where
  | getWorkspace (ref : String)
  | createLocalRepository (workspace : String) (opts : RepositoryOptions)
  | createRemoteRepository (workspace : String) (opts : RepositoryRemoteOptions)
  | createVirtualRepository (workspace : String) (opts : RepositoryVirtualOptions)
  | getRepository (workspaceId repositoryId : String)
  deriving Repr, DecidableEq

/-- Whether a gateway call is one of the three variant-specific creates. -/
def GatewayCall.isCreateCall : GatewayCall → Bool
  | .createLocalRepository _ _ => true
  | .createRemoteRepository _ _ => true
  | .createVirtualRepository _ _ => true
  | _ => false

/-- The remote repository gateway as an oracle: one Except-valued function
per *repoflow.Client method the resource code invokes. -/
structure Client where
  getWorkspace : String → Except String Workspace
  createLocalRepository : String → RepositoryOptions → Except String Repository
  createRemoteRepository : String → RepositoryRemoteOptions → Except String Repository
  createVirtualRepository : String → RepositoryVirtualOptions → Except String Repository
  getRepository : String → String → Except String Repository

/-- One diagnostic added via resp.Diagnostics.AddError, one constructor per
AddError site in the resource code, carrying the formatted-in values. -/
inductive Diag where
  | clientErrorGetWorkspace (workspace err : String)
  | missingRemoteRepositoryUrl
  | missingChildRepositoryIds
  | clientErrorCreateRepository (err : String)
  | clientErrorGetRepository (repositoryId workspaceId err : String)
  | clientErrorImportRepository (repositoryId workspaceId err : String)
  | failToImport (id : String)
  deriving Repr, DecidableEq

/-- One structured log record emitted via tflog.Debug or tflog.Trace, one
constructor per logging site, carrying the logged values.  The debug
entries carry the full options struct, exactly as the Go code passes
opts into the log fields. -/
inductive LogEntry where
  | debugCreateLocalOpts (opts : RepositoryOptions)
  | debugCreateRemoteOpts (opts : RepositoryRemoteOptions)
  | debugCreateVirtualOpts (opts : RepositoryVirtualOptions)
  | traceCreated (repositoryId packageType repositoryType workspaceId id : String)
  | traceGet (id : String)
  | traceImport (id : String)
  deriving Repr, DecidableEq

/-- How a lifecycle invocation ended: an early return after adding error
diagnostics (no state write), a final resp.State.Set with the given
model, or a nil-pointer dereference (runtime panic). -/
inductive Termination where
  | returned
  | wroteState (m : RepositoryResourceModel)
  | nilPanic
  deriving Repr, DecidableEq

/-- The observable outcome of one lifecycle invocation. -/
structure Outcome where
  diags : List Diag
  logs : List LogEntry
  calls : List GatewayCall
  result : Termination
  deriving Repr, DecidableEq

/-- The persisted state after an invocation that started from the given
prior state: resp.State.Set overwrites it, anything else leaves it. -/
def persistedState (prior : RepositoryResourceModel) (o : Outcome) : RepositoryResourceModel :=
  match o.result with
  | Termination.wroteState m => m
  | _ => prior

/-- Embeds mapResponseToModel (workspace_resource.go): maps a remote
repository record back into the declared-state model.  Note that in the
source both the packageType and the repositoryType assignments are
guarded by the same condition rp.RepositoryType != "". -/
def mapResponseToModel (data : RepositoryResourceModel) (rp : Repository)
    (workspaceId : String) : RepositoryResourceModel :=
  { data with
    id := some (workspaceId ++ "/" ++ rp.id)
    repositoryId := some rp.id
    workspaceId := some workspaceId
    name := some rp.name
    packageType := if rp.repositoryType ≠ "" then some rp.packageType else data.packageType
    repositoryType := if rp.repositoryType ≠ "" then some rp.repositoryType else data.repositoryType
    remoteRepositoryUrl := rp.remoteRepositoryUrl
    remoteRepositoryUsername := rp.remoteRepositoryUsername
    remoteRepositoryPassword := rp.remoteRepositoryPassword
    remoteCacheEnabled := some rp.isRemoteCacheEnabled
    fileCacheTimeTillRevalidation := IntPtrToInt64Ptr rp.fileCacheTimeTillRevalidation
    metadataCacheTimeTillRevalidation := IntPtrToInt64Ptr rp.metadataCacheTimeTillRevalidation
    uploadLocalRepositoryId := rp.uploadLocalRepositoryId
    childRepositoryIds :=
      match rp.childRepositories with
      | none => none
      | some cs => some (cs.map ChildRepository.id) }

/-- Shared tail of RepositoryResource.Create after a variant-specific
gateway create call: on error add the client-error diagnostic and return;
on success map the response into the model, emit the trace log and write
the state (the source performs resp.State.Set unconditionally there, even
when earlier diagnostics are present). -/
def createFinish (data : RepositoryResourceModel)
    (workspaceId packageType repositoryType : String)
    (diags : List Diag) (logs : List LogEntry) (calls : List GatewayCall)
    (res : Except String Repository) : Outcome :=
  match res with
  | Except.error e =>
    { diags := diags ++ [Diag.clientErrorCreateRepository e]
      logs := logs, calls := calls, result := Termination.returned }
  | Except.ok rp =>
    { diags := diags
      logs := logs ++ [LogEntry.traceCreated rp.id packageType repositoryType
        workspaceId (workspaceId ++ "/" ++ rp.id)]
      calls := calls
      result := Termination.wroteState (mapResponseToModel data rp workspaceId) }

/-- Embeds RepositoryResource.Create (workspace_resource.go).  Mirrors the
source control flow: GetWorkspace first (a failure only adds a diagnostic,
it does not return — workspaceId stays ""), then the switch on
repositoryType; the virtual branch re-checks HasError after ElementsAs,
the local and remote branches do not; a repositoryType matching no case
leaves both rp and err nil, so the code then dereferences the nil rp
inside mapResponseToModel (modelled as Termination.nilPanic). -/
def create (client : Client) (data : RepositoryResourceModel) : Outcome :=
  let workspace := valueString data.workspaceId
  let packageType := valueString data.packageType
  let repositoryType := valueString data.repositoryType
  let wsRes := client.getWorkspace workspace
  let calls := [GatewayCall.getWorkspace workspace]
  let diags :=
    match wsRes with
    | Except.error e => [Diag.clientErrorGetWorkspace workspace e]
    | Except.ok _ => []
  let workspaceId :=
    match wsRes with
    | Except.error _ => ""
    | Except.ok ws => ws.id
  if repositoryType = "local" then
    let opts : RepositoryOptions :=
      { name := valueString data.name, packageType := valueString data.packageType }
    let logs := [LogEntry.debugCreateLocalOpts opts]
    let calls := calls ++ [GatewayCall.createLocalRepository workspace opts]
    createFinish data workspaceId packageType repositoryType diags logs calls
      (client.createLocalRepository workspace opts)
  else if repositoryType = "remote" then
    if data.remoteRepositoryUrl = none then
      { diags := diags ++ [Diag.missingRemoteRepositoryUrl]
        logs := [], calls := calls, result := Termination.returned }
    else
      let opts : RepositoryRemoteOptions :=
        { name := valueString data.name
          packageType := valueString data.packageType
          remoteRepositoryUrl := valueString data.remoteRepositoryUrl
          remoteRepositoryUsername := valueString data.remoteRepositoryUsername
          remoteRepositoryPassword := valueString data.remoteRepositoryPassword
          isRemoteCacheEnabled := valueBool data.remoteCacheEnabled
          fileCacheTimeTillRevalidation := Int64ToPtr data.fileCacheTimeTillRevalidation
          metadataCacheTimeTillRevalidation := Int64ToPtr data.metadataCacheTimeTillRevalidation }
      let logs := [LogEntry.debugCreateRemoteOpts opts]
      let calls := calls ++ [GatewayCall.createRemoteRepository workspace opts]
      createFinish data workspaceId packageType repositoryType diags logs calls
        (client.createRemoteRepository workspace opts)
  else if repositoryType = "virtual" then
    if data.childRepositoryIds = none then
      { diags := diags ++ [Diag.missingChildRepositoryIds]
        logs := [], calls := calls, result := Termination.returned }
    else if ¬ diags.isEmpty then
      { diags := diags, logs := [], calls := calls, result := Termination.returned }
    else
      let childIds := data.childRepositoryIds.getD []
      let opts : RepositoryVirtualOptions :=
        { name := valueString data.name
          packageType := valueString data.packageType
          childRepositoryIds := childIds
          uploadLocalRepositoryId := valueString data.uploadLocalRepositoryId }
      let logs := [LogEntry.debugCreateVirtualOpts opts]
      let calls := calls ++ [GatewayCall.createVirtualRepository workspace opts]
      createFinish data workspaceId packageType repositoryType diags logs calls
        (client.createVirtualRepository workspace opts)
  else
    { diags := diags, logs := [], calls := calls, result := Termination.nilPanic }

/-- Embeds RepositoryResource.Read (workspace_resource.go): GetRepository,
map the response into the local working model — but the final
resp.State.Set line is commented out in the source, so no state is ever
written back. -/
def read (client : Client) (data : RepositoryResourceModel) : Outcome :=
  let workspaceId := valueString data.workspaceId
  let repositoryId := valueString data.repositoryId
  let calls := [GatewayCall.getRepository workspaceId repositoryId]
  match client.getRepository workspaceId repositoryId with
  | Except.error e =>
    { diags := [Diag.clientErrorGetRepository repositoryId workspaceId e]
      logs := [], calls := calls, result := Termination.returned }
  | Except.ok rp =>
    let _mapped := mapResponseToModel data rp workspaceId
    { diags := [], logs := [LogEntry.traceGet rp.id], calls := calls
      result := Termination.returned }

/-- Embeds RepositoryResource.Update (workspace_resource.go): reads the plan
into the model and re-persists it; the client is never used. -/
def update (_client : Client) (plan : RepositoryResourceModel) : Outcome :=
  { diags := [], logs := [], calls := [], result := Termination.wroteState plan }

/-- Go strings.Split with separator "/": splits at every slash. -/
def splitSlashChars : List Char → List (List Char)
  | [] => [[]]
  | c :: rest =>
    match splitSlashChars rest with
    | [] => [[]]
    | w :: ws => if c = '/' then [] :: w :: ws else (c :: w) :: ws

/-- Go strings.Split(s, "/") lifted to String. -/
def goSplitSlash (s : String) : List String :=
  (splitSlashChars s.data).map String.mk

/-- The zero value of RepositoryResourceModel (Go: var data ...; every
attribute null). -/
def emptyModel : RepositoryResourceModel :=
  { name := none, id := none, workspaceId := none, packageType := none
    repositoryType := none, repositoryId := none, remoteRepositoryUrl := none
    remoteRepositoryUsername := none, remoteRepositoryPassword := none
    remoteCacheEnabled := none, fileCacheTimeTillRevalidation := none
    metadataCacheTimeTillRevalidation := none, childRepositoryIds := none
    uploadLocalRepositoryId := none }

/-- Embeds RepositoryResource.ImportState (workspace_resource.go): split the
supplied id on "/", require exactly two non-empty parts, resolve the
workspace (a failure only adds a diagnostic, it does not return —
workspaceId stays ""), GetRepository, map, and set the state only when no
error diagnostic accumulated. -/
def importState (client : Client) (reqId : String) : Outcome :=
  match goSplitSlash reqId with
  | [workspace, repository] =>
    if workspace = "" ∨ repository = "" then
      { diags := [Diag.failToImport reqId], logs := [], calls := []
        result := Termination.returned }
    else
      let wsRes := client.getWorkspace workspace
      let calls := [GatewayCall.getWorkspace workspace]
      let diags :=
        match wsRes with
        | Except.error e => [Diag.clientErrorGetWorkspace "" e]
        | Except.ok _ => []
      let workspaceId :=
        match wsRes with
        | Except.error _ => ""
        | Except.ok ws => ws.id
      let calls := calls ++ [GatewayCall.getRepository workspaceId repository]
      match client.getRepository workspaceId repository with
      | Except.error e =>
        { diags := diags ++ [Diag.clientErrorImportRepository repository workspaceId e]
          logs := [], calls := calls, result := Termination.returned }
      | Except.ok rp =>
        let mapped := mapResponseToModel emptyModel rp workspaceId
        if ¬ diags.isEmpty then
          { diags := diags, logs := [], calls := calls, result := Termination.returned }
        else
          { diags := diags, logs := [LogEntry.traceImport rp.id], calls := calls
            result := Termination.wroteState mapped }
  | _ =>
    { diags := [Diag.failToImport reqId], logs := [], calls := []
      result := Termination.returned }

/-- The OneOf validator on the repository_type schema attribute
(workspace_resource.go, Schema): the values the declared-state schema
accepts. -/
def repositoryTypeOneOf : List String := ["local", "remote", "virtual"]

/-- Whether the schema validator accepts a repository_type value. -/
def schemaAllowsRepositoryType (s : String) : Bool := repositoryTypeOneOf.contains s

/-! Concrete fixtures used by the witnesses and counterexamples. -/

/-- A workspace whose declared ref "example" resolves to the id "w1". -/
def stubWorkspace : Workspace := { id := "w1", name := "example" }

/-- A plain remote repository record as returned by the gateway. -/
def stubRepository : Repository :=
  { id := "r1"
    name := "local-example"
    repositoryType := "local"
    packageType := "npm"
    remoteRepositoryUrl := none
    remoteRepositoryUsername := none
    remoteRepositoryPassword := none
    isRemoteCacheEnabled := false
    fileCacheTimeTillRevalidation := none
    metadataCacheTimeTillRevalidation := none
    uploadLocalRepositoryId := none
    childRepositories := none }

/-- A gateway on which every operation succeeds: the ref "example" resolves
to workspace id "w1" and every create or get returns stubRepository. -/
def stubClient : Client :=
  { getWorkspace := fun _ => Except.ok stubWorkspace
    createLocalRepository := fun _ _ => Except.ok stubRepository
    createRemoteRepository := fun _ _ => Except.ok { stubRepository with repositoryType := "remote" }
    createVirtualRepository := fun _ _ => Except.ok { stubRepository with repositoryType := "virtual" }
    getRepository := fun _ _ => Except.ok stubRepository }

/-- Same gateway but workspace resolution fails. -/
def failWorkspaceClient : Client :=
  { stubClient with getWorkspace := fun _ => Except.error "boom" }

/-- A desired local repository (the create-local scenario of the spec). -/
def planLocal : RepositoryResourceModel :=
  { emptyModel with
    name := some "local-example"
    workspaceId := some "example"
    repositoryType := some "local"
    packageType := some "npm" }

/-- A desired remote repository with password "hunter2". -/
def planRemoteA : RepositoryResourceModel :=
  { planLocal with
    repositoryType := some "remote"
    remoteRepositoryUrl := some "https://upstream.example/npm"
    remoteRepositoryUsername := some "bot"
    remoteRepositoryPassword := some "hunter2" }

/-- The same desired remote repository with the password changed. -/
def planRemoteB : RepositoryResourceModel :=
  { planRemoteA with remoteRepositoryPassword := some "s3cret" }

/-- A desired virtual repository with a null childRepositoryIds list. -/
def planVirtualNullChildren : RepositoryResourceModel :=
  { planLocal with repositoryType := some "virtual" }

/-- A desired virtual repository with an empty (non-null) child list. -/
def planVirtualEmptyChildren : RepositoryResourceModel :=
  { planVirtualNullChildren with childRepositoryIds := some [] }

/-- A desired virtual repository whose upload target "x" is not a member of
its child list ["y", "z"]. -/
def planVirtualBadUpload : RepositoryResourceModel :=
  { planVirtualNullChildren with
    childRepositoryIds := some ["y", "z"]
    uploadLocalRepositoryId := some "x" }

/-- A desired repository with a repositoryType outside the recognized set. -/
def planWeird : RepositoryResourceModel :=
  { planLocal with repositoryType := some "federated" }

/-! Helper lemmas shared by the claim theorems. -/

/-- Reading a null string attribute yields the empty string. -/
theorem valueString_none : valueString none = "" := rfl

/-- Reading a known string attribute yields its value. -/
theorem valueString_some (s : String) : valueString (some s) = s := rfl

/-- The gateway-call trace of the shared create tail is the trace it was
given, whether the create call succeeded or failed. -/
theorem createFinish_calls (data : RepositoryResourceModel)
    (workspaceId packageType repositoryType : String) (diags : List Diag)
    (logs : List LogEntry) (calls : List GatewayCall) (res : Except String Repository) :
    (createFinish data workspaceId packageType repositoryType diags logs calls res).calls = calls := by
  cases res <;> rfl

/-- Any diagnostic of the shared create tail is either one it was handed or
the client-error diagnostic of a failed create call. -/
theorem createFinish_diags_sub {data : RepositoryResourceModel}
    {workspaceId packageType repositoryType : String} {diags : List Diag}
    {logs : List LogEntry} {calls : List GatewayCall} {res : Except String Repository}
    {d : Diag}
    (hd : d ∈ (createFinish data workspaceId packageType repositoryType diags logs calls res).diags) :
    d ∈ diags ∨ ∃ e, d = Diag.clientErrorCreateRepository e := by
  cases res with
  | error e =>
    simp [createFinish] at hd
    rcases hd with h | h
    · exact Or.inl h
    · exact Or.inr ⟨e, h⟩
  | ok rp => exact Or.inl hd

/-- factory.Int64ToPtr carries null to null and a value to the same value. -/
theorem Int64ToPtr_id (o : Option Int) : Int64ToPtr o = o := by cases o <;> rfl

/-- factory.IntPtrToInt64Ptr carries nil to null and a value to the same value. -/
theorem IntPtrToInt64Ptr_id (o : Option Int) : IntPtrToInt64Ptr o = o := by cases o <;> rfl

/-! Claim theorems. -/

/-- C1 counterexample: a desired virtual repository whose upload target "x"
is not a member of its child list ["y", "z"] is not rejected before the
variant-specific gateway create call — Create makes the virtual create
call and finishes without any diagnostic, refuting the claim that it
fails with InvalidReference before any create call. -/
theorem create_virtual_upload_target_unchecked_cex :
    ("x" : String) ∉ ["y", "z"]
    ∧ planVirtualBadUpload.uploadLocalRepositoryId = some "x"
    ∧ planVirtualBadUpload.childRepositoryIds = some ["y", "z"]
    ∧ ((create stubClient planVirtualBadUpload).calls.any GatewayCall.isCreateCall) = true
    ∧ (create stubClient planVirtualBadUpload).diags = [] :=
  ⟨by decide, rfl, rfl, rfl, rfl⟩

/-- C1 (amended): Create performs no membership validation of the upload
target: for every desired virtual repository with a non-null child list,
whatever the upload target value, the virtual gateway create call is made
with that value passed through unchecked. -/
theorem create_virtual_upload_target_passthrough
    (client : Client) (data : RepositoryResourceModel) (l : List String) (ws : Workspace)
    (hType : data.repositoryType = some "virtual")
    (hChildren : data.childRepositoryIds = some l)
    (hWs : client.getWorkspace (valueString data.workspaceId) = Except.ok ws) :
    (create client data).calls =
      [GatewayCall.getWorkspace (valueString data.workspaceId),
       GatewayCall.createVirtualRepository (valueString data.workspaceId)
         { name := valueString data.name
           packageType := valueString data.packageType
           childRepositoryIds := l
           uploadLocalRepositoryId := valueString data.uploadLocalRepositoryId }] := by
  simp [create, hType, hChildren, hWs, valueString_some, createFinish_calls]

/-- C1 witness: the amended statement evaluated on the concrete fixture
whose upload target "x" is outside its child list ["y", "z"]. -/
theorem create_virtual_upload_target_passthrough_witness :
    planVirtualBadUpload.repositoryType = some "virtual"
    ∧ planVirtualBadUpload.childRepositoryIds = some ["y", "z"]
    ∧ stubClient.getWorkspace (valueString planVirtualBadUpload.workspaceId) = Except.ok stubWorkspace
    ∧ (create stubClient planVirtualBadUpload).calls =
        [GatewayCall.getWorkspace (valueString planVirtualBadUpload.workspaceId),
         GatewayCall.createVirtualRepository (valueString planVirtualBadUpload.workspaceId)
           { name := valueString planVirtualBadUpload.name
             packageType := valueString planVirtualBadUpload.packageType
             childRepositoryIds := ["y", "z"]
             uploadLocalRepositoryId := valueString planVirtualBadUpload.uploadLocalRepositoryId }] :=
  ⟨rfl, rfl, rfl,
   create_virtual_upload_target_passthrough stubClient planVirtualBadUpload
     ["y", "z"] stubWorkspace rfl rfl rfl⟩

/-- C2 counterexample: with a null child list Create still makes a gateway
call (the workspace-resolution lookup precedes validation), and an empty
but non-null child list is not rejected at all — the create proceeds with
no diagnostic; both refute the claim of a MissingRequiredField failure
with zero gateway calls for absent-or-empty child lists. -/
theorem create_virtual_missing_children_cex :
    planVirtualNullChildren.childRepositoryIds = none
    ∧ (create stubClient planVirtualNullChildren).calls = [GatewayCall.getWorkspace "example"]
    ∧ (create stubClient planVirtualNullChildren).calls ≠ []
    ∧ planVirtualEmptyChildren.childRepositoryIds = some []
    ∧ (create stubClient planVirtualEmptyChildren).diags = []
    ∧ ((create stubClient planVirtualEmptyChildren).calls.any GatewayCall.isCreateCall) = true :=
  ⟨rfl, rfl, by decide, rfl, rfl, rfl⟩

/-- C2 (amended): for a desired virtual repository, a null childRepositoryIds
yields the missing-required-field diagnostic and an early return with no
variant create call, but only after the workspace-resolution lookup (the
trace is exactly that one gateway call); a non-null child list — even the
empty one — never produces that diagnostic. -/
theorem create_virtual_null_children_diag
    (client : Client) (data : RepositoryResourceModel)
    (hType : data.repositoryType = some "virtual") :
    (data.childRepositoryIds = none →
       (create client data).calls = [GatewayCall.getWorkspace (valueString data.workspaceId)]
       ∧ Diag.missingChildRepositoryIds ∈ (create client data).diags
       ∧ (create client data).result = Termination.returned)
    ∧ (∀ l, data.childRepositoryIds = some l →
       Diag.missingChildRepositoryIds ∉ (create client data).diags) := by
  constructor
  · intro hNone
    cases hWs : client.getWorkspace (valueString data.workspaceId) <;>
      simp [create, hType, hNone, hWs, valueString_some]
  · intro l hl hmem
    cases hWs : client.getWorkspace (valueString data.workspaceId) with
    | error e =>
      simp [create, hType, hl, hWs, valueString_some] at hmem
    | ok ws =>
      simp [create, hType, hl, hWs, valueString_some] at hmem
      rcases createFinish_diags_sub hmem with h | ⟨e, h⟩ <;> simp at h

/-- C2 witness: the amended statement evaluated on the null-children and
empty-children fixtures. -/
theorem create_virtual_null_children_diag_witness :
    planVirtualNullChildren.repositoryType = some "virtual"
    ∧ ((create stubClient planVirtualNullChildren).calls =
          [GatewayCall.getWorkspace (valueString planVirtualNullChildren.workspaceId)]
       ∧ Diag.missingChildRepositoryIds ∈ (create stubClient planVirtualNullChildren).diags
       ∧ (create stubClient planVirtualNullChildren).result = Termination.returned)
    ∧ Diag.missingChildRepositoryIds ∉ (create stubClient planVirtualEmptyChildren).diags :=
  ⟨rfl,
   (create_virtual_null_children_diag stubClient planVirtualNullChildren rfl).1 rfl,
   (create_virtual_null_children_diag stubClient planVirtualEmptyChildren rfl).2 [] rfl⟩

/-- C3: evaluation at the failing input.  When workspace resolution fails
(gateway error) in Create of a local repository, the code does not stop:
it still makes the variant create call, and on its success writes state
whose composite id is built from the empty workspace id ("/r1" — partial
composite-id state recorded after a failed stage).  Likewise ImportState
still makes the repository get call (with workspaceId "") after a failed
workspace resolution.  This contradicts the claim that an error
terminates the invocation at its stage. -/
theorem create_import_continue_after_workspace_failure :
    (create failWorkspaceClient planLocal).diags = [Diag.clientErrorGetWorkspace "example" "boom"]
    ∧ (create failWorkspaceClient planLocal).calls =
        [GatewayCall.getWorkspace "example",
         GatewayCall.createLocalRepository "example" { name := "local-example", packageType := "npm" }]
    ∧ (create failWorkspaceClient planLocal).result =
        Termination.wroteState (mapResponseToModel planLocal stubRepository "")
    ∧ (mapResponseToModel planLocal stubRepository "").id = some "/r1"
    ∧ (importState failWorkspaceClient "example/r1").calls =
        [GatewayCall.getWorkspace "example", GatewayCall.getRepository "" "r1"] :=
  ⟨rfl, rfl, rfl, rfl, rfl⟩

/-- C4: evaluation at the failing input.  Both defaulting guards in
mapResponseToModel test the remote repositoryType string, so a remote
record with an empty packageType and a non-empty repositoryType gets the
empty string written into the declared packageType (first half), while a
non-empty packageType with an empty repositoryType is dropped (second
half) — contradicting the claim that packageType is left unset exactly
when the remote packageType string is empty. -/
theorem mapResponseToModel_packageType_guard_bug :
    ({ stubRepository with packageType := "" } : Repository).packageType = ""
    ∧ (mapResponseToModel emptyModel { stubRepository with packageType := "" } "w1").packageType
        = some ""
    ∧ ({ stubRepository with packageType := "npm", repositoryType := "" } : Repository).packageType
        = "npm"
    ∧ (mapResponseToModel emptyModel
        { stubRepository with packageType := "npm", repositoryType := "" } "w1").packageType
        = none :=
  ⟨rfl, rfl, rfl, rfl⟩

/-- C5 counterexample: on a desired repository of type "federated" Create
adds no diagnostic at all and ends in the nil-pointer dereference, not in
a terminating UnknownVariant error result. -/
theorem create_unknown_variant_cex :
    planWeird.repositoryType = some "federated"
    ∧ (create stubClient planWeird).diags = []
    ∧ (create stubClient planWeird).result = Termination.nilPanic
    ∧ (create stubClient planWeird).result ≠ Termination.returned :=
  ⟨rfl, rfl, rfl, by decide⟩

/-- C5 (amended): Create has no branch for an unrecognized repositoryType:
no variant create call is made and the invocation ends in a nil-pointer
dereference rather than an UnknownVariant error; such values are excluded
upstream by the schema OneOf validator, which rejects them. -/
theorem create_unknown_variant_panics
    (client : Client) (data : RepositoryResourceModel)
    (h1 : valueString data.repositoryType ≠ "local")
    (h2 : valueString data.repositoryType ≠ "remote")
    (h3 : valueString data.repositoryType ≠ "virtual") :
    (create client data).result = Termination.nilPanic
    ∧ (create client data).calls = [GatewayCall.getWorkspace (valueString data.workspaceId)]
    ∧ schemaAllowsRepositoryType (valueString data.repositoryType) = false := by
  refine ⟨?_, ?_, ?_⟩
  · cases hWs : client.getWorkspace (valueString data.workspaceId) <;>
      simp [create, h1, h2, h3, hWs]
  · cases hWs : client.getWorkspace (valueString data.workspaceId) <;>
      simp [create, h1, h2, h3, hWs]
  · simp [schemaAllowsRepositoryType, repositoryTypeOneOf, h1, h2, h3]

/-- C5 witness: the amended statement evaluated at repositoryType
"federated". -/
theorem create_unknown_variant_panics_witness :
    valueString planWeird.repositoryType ≠ "local"
    ∧ valueString planWeird.repositoryType ≠ "remote"
    ∧ valueString planWeird.repositoryType ≠ "virtual"
    ∧ ((create stubClient planWeird).result = Termination.nilPanic
       ∧ (create stubClient planWeird).calls =
           [GatewayCall.getWorkspace (valueString planWeird.workspaceId)]
       ∧ schemaAllowsRepositoryType (valueString planWeird.repositoryType) = false) :=
  ⟨by decide, by decide, by decide,
   create_unknown_variant_panics stubClient planWeird (by decide) (by decide) (by decide)⟩

/-- C6 counterexample: with the ref "example" resolving to workspace id
"w1", the local create call still receives "example" (the caller-declared
ref), not the resolved id "w1" — refuting the claim that the variant
create operation is invoked with the resolved workspace id. -/
theorem create_called_with_ref_cex :
    stubClient.getWorkspace "example" = Except.ok stubWorkspace
    ∧ stubWorkspace.id = "w1"
    ∧ (create stubClient planLocal).calls =
        [GatewayCall.getWorkspace "example",
         GatewayCall.createLocalRepository "example" { name := "local-example", packageType := "npm" }]
    ∧ ("example" : String) ≠ "w1" :=
  ⟨rfl, rfl, rfl, by decide⟩

/-- C6 (amended): the variant-specific gateway create call is made with the
caller-declared workspace ref string, while the persisted composite id is
built from the resolved workspace id joined by "/" with the
remote-returned repository id. -/
theorem create_local_ref_call_and_composite_id
    (client : Client) (data : RepositoryResourceModel) (ws : Workspace) (rp : Repository)
    (hType : data.repositoryType = some "local")
    (hWs : client.getWorkspace (valueString data.workspaceId) = Except.ok ws)
    (hCr : client.createLocalRepository (valueString data.workspaceId)
      { name := valueString data.name, packageType := valueString data.packageType }
      = Except.ok rp) :
    (create client data).calls =
      [GatewayCall.getWorkspace (valueString data.workspaceId),
       GatewayCall.createLocalRepository (valueString data.workspaceId)
         { name := valueString data.name, packageType := valueString data.packageType }]
    ∧ (create client data).result = Termination.wroteState (mapResponseToModel data rp ws.id)
    ∧ (mapResponseToModel data rp ws.id).id = some (ws.id ++ "/" ++ rp.id) := by
  refine ⟨?_, ?_, ?_⟩
  · simp [create, hType, hWs, valueString_some, createFinish_calls]
  · simp [create, hType, hWs, hCr, valueString_some, createFinish]
  · simp [mapResponseToModel]

/-- C6 witness: the amended statement evaluated on the create-local
scenario fixture. -/
theorem create_local_ref_call_and_composite_id_witness :
    planLocal.repositoryType = some "local"
    ∧ stubClient.getWorkspace (valueString planLocal.workspaceId) = Except.ok stubWorkspace
    ∧ stubClient.createLocalRepository (valueString planLocal.workspaceId)
        { name := valueString planLocal.name, packageType := valueString planLocal.packageType }
        = Except.ok stubRepository
    ∧ ((create stubClient planLocal).calls =
         [GatewayCall.getWorkspace (valueString planLocal.workspaceId),
          GatewayCall.createLocalRepository (valueString planLocal.workspaceId)
            { name := valueString planLocal.name, packageType := valueString planLocal.packageType }]
       ∧ (create stubClient planLocal).result =
           Termination.wroteState (mapResponseToModel planLocal stubRepository stubWorkspace.id)
       ∧ (mapResponseToModel planLocal stubRepository stubWorkspace.id).id =
           some (stubWorkspace.id ++ "/" ++ stubRepository.id)) :=
  ⟨rfl, rfl, rfl,
   create_local_ref_call_and_composite_id stubClient planLocal stubWorkspace stubRepository
     rfl rfl rfl⟩

/-- C7: evaluation at the failing input.  Two remote-create plans that are
identical except for remoteRepositoryPassword produce different log
output — the tflog.Debug entry carries the full options struct, password
included — refuting the two-run noninterference of the logs with respect
to the password. -/
theorem create_remote_logs_depend_on_password :
    planRemoteB = { planRemoteA with remoteRepositoryPassword := some "s3cret" }
    ∧ (create stubClient planRemoteA).logs ≠ (create stubClient planRemoteB).logs
    ∧ (create stubClient planRemoteA).logs.head? =
        some (LogEntry.debugCreateRemoteOpts
          { name := "local-example"
            packageType := "npm"
            remoteRepositoryUrl := "https://upstream.example/npm"
            remoteRepositoryUsername := "bot"
            remoteRepositoryPassword := "hunter2"
            isRemoteCacheEnabled := false
            fileCacheTimeTillRevalidation := none
            metadataCacheTimeTillRevalidation := none }) :=
  ⟨rfl, by decide, rfl⟩

/-- C8: Read never writes state — for every gateway behaviour and every
prior state, the persisted state after a Read invocation equals the prior
state (the final resp.State.Set is commented out in the source, and the
error path returns before it). -/
theorem read_preserves_state (client : Client) (data : RepositoryResourceModel) :
    persistedState data (read client data) = data := by
  cases h : client.getRepository (valueString data.workspaceId) (valueString data.repositoryId) <;>
    simp [read, persistedState, h]

/-- C9: Update makes no gateway call, adds no diagnostic, and re-persists
exactly the caller-supplied new desired state. -/
theorem update_no_gateway_persists_plan (client : Client) (plan : RepositoryResourceModel) :
    (update client plan).calls = [] ∧ (update client plan).diags = []
    ∧ (update client plan).result = Termination.wroteState plan :=
  ⟨rfl, rfl, rfl⟩

/-- C10: the optional cache TTL fields round-trip null to null and a value
(including an explicit 0) to the same value: the remote create call sends
exactly the declared Option value for both TTL fields, and
mapResponseToModel maps the remote Option value back unchanged, so null
and explicit 0 stay distinct in both directions. -/
theorem cache_ttl_null_roundtrip
    (client : Client) (data : RepositoryResourceModel)
    (rp : Repository) (prior : RepositoryResourceModel) (w : String)
    (hType : data.repositoryType = some "remote")
    (hUrl : data.remoteRepositoryUrl ≠ none) :
    (∃ opts : RepositoryRemoteOptions,
       (create client data).calls =
         [GatewayCall.getWorkspace (valueString data.workspaceId),
          GatewayCall.createRemoteRepository (valueString data.workspaceId) opts]
       ∧ opts.fileCacheTimeTillRevalidation = data.fileCacheTimeTillRevalidation
       ∧ opts.metadataCacheTimeTillRevalidation = data.metadataCacheTimeTillRevalidation)
    ∧ (mapResponseToModel prior rp w).fileCacheTimeTillRevalidation
        = rp.fileCacheTimeTillRevalidation
    ∧ (mapResponseToModel prior rp w).metadataCacheTimeTillRevalidation
        = rp.metadataCacheTimeTillRevalidation
    ∧ Int64ToPtr none = none ∧ Int64ToPtr (some 0) = some 0 := by
  refine ⟨⟨{ name := valueString data.name
             packageType := valueString data.packageType
             remoteRepositoryUrl := valueString data.remoteRepositoryUrl
             remoteRepositoryUsername := valueString data.remoteRepositoryUsername
             remoteRepositoryPassword := valueString data.remoteRepositoryPassword
             isRemoteCacheEnabled := valueBool data.remoteCacheEnabled
             fileCacheTimeTillRevalidation := Int64ToPtr data.fileCacheTimeTillRevalidation
             metadataCacheTimeTillRevalidation := Int64ToPtr data.metadataCacheTimeTillRevalidation },
           ?_, Int64ToPtr_id _, Int64ToPtr_id _⟩,
         ?_, ?_, rfl, rfl⟩
  · simp [create, hType, hUrl, valueString_some, createFinish_calls]
  · simp [mapResponseToModel, IntPtrToInt64Ptr_id]
  · simp [mapResponseToModel, IntPtrToInt64Ptr_id]

/-- C10 witness: the roundtrip statement evaluated on the remote-create
fixture (null TTLs declared) and a remote record carrying a null file TTL
and an explicit 0 metadata TTL. -/
theorem cache_ttl_null_roundtrip_witness :
    planRemoteA.repositoryType = some "remote"
    ∧ planRemoteA.remoteRepositoryUrl ≠ none
    ∧ ((∃ opts : RepositoryRemoteOptions,
          (create stubClient planRemoteA).calls =
            [GatewayCall.getWorkspace (valueString planRemoteA.workspaceId),
             GatewayCall.createRemoteRepository (valueString planRemoteA.workspaceId) opts]
          ∧ opts.fileCacheTimeTillRevalidation = planRemoteA.fileCacheTimeTillRevalidation
          ∧ opts.metadataCacheTimeTillRevalidation = planRemoteA.metadataCacheTimeTillRevalidation)
       ∧ (mapResponseToModel emptyModel
            { stubRepository with metadataCacheTimeTillRevalidation := some 0 } "w1"
          ).fileCacheTimeTillRevalidation
            = ({ stubRepository with metadataCacheTimeTillRevalidation := some 0 } : Repository
              ).fileCacheTimeTillRevalidation
       ∧ (mapResponseToModel emptyModel
            { stubRepository with metadataCacheTimeTillRevalidation := some 0 } "w1"
          ).metadataCacheTimeTillRevalidation
            = ({ stubRepository with metadataCacheTimeTillRevalidation := some 0 } : Repository
              ).metadataCacheTimeTillRevalidation
       ∧ Int64ToPtr none = none ∧ Int64ToPtr (some 0) = some 0) :=
  ⟨rfl, by decide,
   cache_ttl_null_roundtrip stubClient planRemoteA
     { stubRepository with metadataCacheTimeTillRevalidation := some 0 } emptyModel "w1"
     rfl (by decide)⟩

end Repoflow
